import Mathlib

/-!
Shallow embedding of the FaceAttendance decision core.

Embedded source files:
- `backend/utils/embeddings.py` (`EmbeddingService.face_distance`,
  `EmbeddingService.find_best_match`, `generate_class_embeddings_sync`,
  `save_class_embeddings`),
- `backend/face_recognition_mock.py` (`face_distance`),
- `backend/utils/recognition.py` (`RecognitionService.train_class_embeddings`),
- `backend/utils/firebase_utils.py` (`FirebaseService.save_embeddings`),
- `liveness_service/liveness_detector.py` (`LivenessDetector.check_liveness`).

Python floats are embedded as exact rationals (`ℚ`).  External capabilities
(the numpy norm primitive, image fetch, base64 decode, face-encoding
extraction, the durable Firestore tier) are passed as explicit function
parameters; everything else is translated from the code of the repository.
-/

namespace FaceAttendance

/-- Decidable equality for `Except`, needed to state and evaluate results
of fallible operations on concrete inputs. -/
instance {e a : Type} [DecidableEq e] [DecidableEq a] : DecidableEq (Except e a) :=
  fun x y =>
    match x, y with
    | Except.ok u, Except.ok v =>
      if h : u = v then isTrue (by rw [h])
      else isFalse (fun hc => h (Except.ok.inj hc))
    | Except.ok _, Except.error _ => isFalse (fun hc => Except.noConfusion hc)
    | Except.error _, Except.ok _ => isFalse (fun hc => Except.noConfusion hc)
    | Except.error u, Except.error v =>
      if h : u = v then isTrue (by rw [h])
      else isFalse (fun hc => h (Except.error.inj hc))

/-- A face signature vector (the repository uses 128-dimensional numpy
arrays of floats; lengths are kept arbitrary, as in the Python code, so that
shape mismatches can be expressed). -/
abbrev Vec := List ℚ

/-- The external numeric primitive `np.linalg.norm(known - unknown)` used by
`face_recognition_mock.face_distance`.  numpy raises `ValueError` when the
two shapes are incompatible; that raise is the `Except.error` case. -/
abbrev NormFn := Vec → Vec → Except Unit ℚ

/-- `face_recognition_mock.face_distance`, lines 92-97: NaN/Infinity are
replaced by `1.0` (unrepresentable in `ℚ`, so that branch is vacuous here),
and a distance above `1.0` is clamped to `min(distance, 1.0)`. -/
def clampDist (d : ℚ) : ℚ :=
  if d > 1 then min d 1 else d

/-- `face_recognition_mock.face_distance` (lines 77-104): returns `[]` for an
empty list of known encodings; otherwise one distance per known encoding.
The per-encoding `try/except` catches any error from the norm primitive
(e.g. a shape mismatch) and appends the worst-case distance `1.0` instead. -/
def mock_face_distance (norm : NormFn) (known_face_encodings : List Vec)
    (face_encoding_to_check : Vec) : List ℚ :=
  if known_face_encodings.isEmpty then []
  else
    known_face_encodings.map (fun known_encoding =>
      match norm known_encoding face_encoding_to_check with
      | Except.ok d => clampDist d
      | Except.error _ => 1)

/-- `EmbeddingService.face_distance` (embeddings.py lines 145-154): delegates
to the library `face_distance` (the in-repository implementation of which is the
mock module).  Its `try/except` would return `[]` on an exception, but the
mock `face_distance` is total, so that branch is dead. -/
def face_distance (norm : NormFn) (known_encodings : List Vec)
    (unknown_encoding : Vec) : List ℚ :=
  mock_face_distance norm known_encodings unknown_encoding

/-- `np.argmin`: index of the first occurrence of the minimum value
(external numpy primitive, embedded directly). -/
def argminQ : List ℚ → ℕ
  | [] => 0
  | d :: rest =>
    if rest.isEmpty then 0
    else
      let j := argminQ rest
      if rest.getD j 0 < d then j + 1 else 0

/-- The `reason` strings of the two rejection branches of `find_best_match`. -/
inductive Reason where
  | LowConfidence
  | DistanceExceedsTolerance
deriving DecidableEq, Repr

/-- The dictionary returned by `find_best_match`.  The `distance` and
`reason` keys are absent (`none`) in the empty-set result. -/
structure MatchResult where
  matched : Bool
  student_id : Option String
  confidence : ℚ
  distance : Option ℚ
  reason : Option Reason
deriving DecidableEq, Repr

/-- `EmbeddingService.find_best_match` (embeddings.py lines 156-213).  The
enrolled dictionary is embedded as an association list in iteration order.
The outer `try/except` (lines 215-217) only fires if numpy raises past
`face_distance`, which cannot happen here (the mock catches internally), so
it is not reachable in the embedding. -/
def find_best_match (norm : NormFn) (known_encodings : List (String × Vec))
    (unknown_encoding : Vec) (tolerance : ℚ) : MatchResult :=
  if known_encodings.isEmpty then
    { matched := false, student_id := none, confidence := 0,
      distance := none, reason := none }
  else
    let student_ids := known_encodings.map Prod.fst
    let encodings := known_encodings.map Prod.snd
    let distances := face_distance norm encodings unknown_encoding
    let best_index := argminQ distances
    let best_distance := distances.getD best_index 0
    let best_student_id := student_ids.getD best_index ""
    let confidence := 1 - best_distance
    let is_match := best_distance ≤ tolerance
    if is_match then
      -- min_confidence_threshold = 0.5  (line 188)
      if confidence ≥ 1/2 then
        { matched := true, student_id := some best_student_id,
          confidence := confidence, distance := some best_distance,
          reason := none }
      else
        { matched := false, student_id := some best_student_id,
          confidence := confidence, distance := some best_distance,
          reason := some Reason.LowConfidence }
    else
      { matched := false, student_id := some best_student_id,
        confidence := confidence, distance := some best_distance,
        reason := some Reason.DistanceExceedsTolerance }

/-- The distance list computed inside `find_best_match`. -/
def match_distances (norm : NormFn) (known_encodings : List (String × Vec))
    (unknown_encoding : Vec) : List ℚ :=
  face_distance norm (known_encodings.map Prod.snd) unknown_encoding

/-- The `best_distance` local of `find_best_match`. -/
def best_distance (norm : NormFn) (known_encodings : List (String × Vec))
    (unknown_encoding : Vec) : ℚ :=
  (match_distances norm known_encodings unknown_encoding).getD
    (argminQ (match_distances norm known_encodings unknown_encoding)) 0

/-- The `best_student_id` local of `find_best_match`. -/
def best_student_id (norm : NormFn) (known_encodings : List (String × Vec))
    (unknown_encoding : Vec) : String :=
  (known_encodings.map Prod.fst).getD
    (argminQ (match_distances norm known_encodings unknown_encoding)) ""

/-- A concrete instance of the norm primitive, used by witnesses: the
squared Euclidean norm of the difference (which agrees with the Euclidean
norm whenever the squared sum is `0` or `1`, as in every witness input, and
is nonnegative like any norm), failing exactly on a shape mismatch just as
numpy broadcasting does for the signature vectors at hand. -/
def sqNorm : NormFn := fun a b =>
  if a.length = b.length then
    Except.ok (((a.zip b).map (fun p => (p.1 - p.2) ^ 2)).sum)
  else
    Except.error ()

/-! ### Liveness engine (`liveness_service/liveness_detector.py`) -/

/-- The five per-frame scores computed by `check_liveness` (lines 352-356)
from the face crop; the image-processing producing them (OpenCV Laplacian
variance, the YCrCb skin mask, the FFT high-frequency ratio, the eye
cascade) is external, so the metrics are the input of the embedding. -/
structure LivenessMetrics where
  texture_score : ℚ
  blur_score : ℚ
  color_score : ℚ
  moire_score : ℚ
  num_eyes : ℕ
deriving DecidableEq, Repr

/-- `self.TEXTURE_THRESHOLD = 15.0` (line 58). -/
def TEXTURE_THRESHOLD : ℚ := 15

/-- `self.QUALITY_THRESHOLD = 50.0` (line 59). -/
def QUALITY_THRESHOLD : ℚ := 50

/-- `self.COLOR_SCORE_THRESHOLD = 0.3` (line 60). -/
def COLOR_SCORE_THRESHOLD : ℚ := 3/10

/-- The five boolean checks of `check_liveness` (lines 359-363), in source
order: texture, quality, color, eyes, moiré. -/
def liveness_checks (m : LivenessMetrics) : List Bool :=
  [decide (m.texture_score ≥ TEXTURE_THRESHOLD),
   decide (m.blur_score ≥ QUALITY_THRESHOLD),
   decide (m.color_score ≥ COLOR_SCORE_THRESHOLD),
   decide (m.num_eyes ≥ 1),
   decide (m.moire_score < 3/10)]

/-- `checks_passed = sum([...])` (lines 366-372). -/
def liveness_checks_passed (m : LivenessMetrics) : ℕ :=
  (liveness_checks m).count true

/-- The weighted confidence accumulated in lines 375-380:
`0.25·min(texture/50, 1) + 0.20·min(blur/100, 1) + 0.20·color
 + 0.20·(1 if eyes else 0) + 0.15·(1 − min(moire·2, 1))`. -/
def liveness_confidence (m : LivenessMetrics) : ℚ :=
  0
    + (1/4) * min (m.texture_score / 50) 1
    + (1/5) * min (m.blur_score / 100) 1
    + (1/5) * m.color_score
    + (1/5) * (if m.num_eyes ≥ 1 then 1 else 0)
    + (3/20) * (1 - min (m.moire_score * 2) 1)

/-- The Python built-in `round(x, 3)`: round half to even at the third decimal (the
ideal semantics of the presentation-only rounding on line 388). -/
def round3 (x : ℚ) : ℚ :=
  let y := x * 1000
  let f := Int.floor y
  let r := y - f
  let z : ℤ :=
    if r < 1/2 then f
    else if r > 1/2 then f + 1
    else if f % 2 = 0 then f else f + 1
  (z : ℚ) / 1000

/-- The dictionary returned by `check_liveness` in the with-face case
(lines 386-404), with the `checks` and `scores` sub-dictionaries flattened
into named fields.  `confidence` is the rounded reported value; the verdict
`is_live` is computed from the unrounded confidence, as in the source. -/
structure LivenessResult where
  is_live : Bool
  confidence : ℚ
  texture_passed : Bool
  quality_passed : Bool
  color_passed : Bool
  eyes_detected : Bool
  moire_low : Bool
  checks_passed : ℕ
  total_checks : ℕ
deriving DecidableEq, Repr

/-- `LivenessDetector.check_liveness`, lines 358-404: the decision core
after image load and face detection (whose failure branches return
`is_live:false, confidence:0.0` with an error and never reach this code). -/
def check_liveness_core (m : LivenessMetrics) : LivenessResult :=
  let texture_passed := decide (m.texture_score ≥ TEXTURE_THRESHOLD)
  let quality_passed := decide (m.blur_score ≥ QUALITY_THRESHOLD)
  let color_passed := decide (m.color_score ≥ COLOR_SCORE_THRESHOLD)
  let eyes_detected := decide (m.num_eyes ≥ 1)
  let moire_low := decide (m.moire_score < 3/10)
  let checks_passed := liveness_checks_passed m
  let confidence := liveness_confidence m
  -- line 384: is_live = checks_passed >= 3 and confidence >= 0.5
  let is_live := decide (checks_passed ≥ 3) && decide (confidence ≥ 1/2)
  { is_live := is_live, confidence := round3 confidence,
    texture_passed := texture_passed, quality_passed := quality_passed,
    color_passed := color_passed, eyes_detected := eyes_detected,
    moire_low := moire_low, checks_passed := checks_passed,
    total_checks := 5 }

/-! ### Enrollment pipeline and signature cache
(`backend/utils/recognition.py`, `backend/utils/embeddings.py`,
`backend/utils/firebase_utils.py`) -/

/-- One entry of the `students` list handed to
`train_class_embeddings` (the fields the pipeline reads). -/
structure Student where
  id : String
  name : String
  photo : String
deriving DecidableEq, Repr

/-- The image payload the acquisition of a member can yield: raw downloaded
bytes (abstracted to a token), or a `data:image` base64 URL string whose
decoding may itself fail (`generate_class_embeddings_sync` lines 243-250). -/
inductive ImageData where
  | raw (content : ℕ)
  | dataUrl (payload : String)
deriving DecidableEq, Repr

/-- External capability `extract_face_encoding(image_bytes)`: a
128-dimensional encoding, or `none` when no face is found / the image is
malformed. -/
abbrev ExtractFn := ℕ → Option Vec

/-- External base64 decoder (`base64.b64decode`), `none` on a decode
error. -/
abbrev DecodeFn := String → Option ℕ

/-- External per-member image acquisition (`firebase.download_image`,
possibly after `get_student_photo_url`): `none` covers a failed download
and an exception captured by `asyncio.gather(..., return_exceptions=True)`. -/
abbrev FetchFn := Student → Option ImageData

/-- Resolve an acquired image to raw bytes, decoding `data:image` URLs
(lines 243-250 of `generate_class_embeddings_sync`). -/
def resolve_image (b64decode : DecodeFn) : ImageData → Option ℕ
  | ImageData.raw content => some content
  | ImageData.dataUrl payload => b64decode payload

/-- Python-dict insertion on an association list kept in insertion order:
replace in place when the key exists, append otherwise. -/
def assoc_insert {α : Type} (l : List (String × α)) (k : String) (v : α) :
    List (String × α) :=
  if l.any (fun p => p.1 = k) then
    l.map (fun p => if p.1 = k then (k, v) else p)
  else
    l ++ [(k, v)]

/-- The loop body chain of `generate_class_embeddings_sync`
(embeddings.py lines 226-263): each failed stage is a `continue` that skips
just that member. -/
def gen_sync_go (extract : ExtractFn) (b64decode : DecodeFn) :
    List (String × Vec) → List (Student × Option ImageData) → List (String × Vec)
  | embeddings, [] => embeddings
  | embeddings, (student, image_data) :: rest =>
    if student.photo = "" then
      -- "No photo found" → continue
      gen_sync_go extract b64decode embeddings rest
    else
      match image_data with
      | none =>
        -- "Could not download image" → continue
        gen_sync_go extract b64decode embeddings rest
      | some d =>
        match resolve_image b64decode d with
        | none =>
          -- "Error decoding base64 image" → continue
          gen_sync_go extract b64decode embeddings rest
        | some image_bytes =>
          match extract image_bytes with
          | some encoding =>
            gen_sync_go extract b64decode
              (assoc_insert embeddings student.id encoding) rest
          | none =>
            -- "Could not generate face encoding" → continue
            gen_sync_go extract b64decode embeddings rest

/-- `EmbeddingService.generate_class_embeddings_sync` (lines 219-266). -/
def generate_class_embeddings_sync (extract : ExtractFn) (b64decode : DecodeFn)
    (students_with_images : List (Student × Option ImageData)) :
    List (String × Vec) :=
  gen_sync_go extract b64decode [] students_with_images

/-- The mutable storage both tiers live in: the in-process
`embeddings_cache` dictionary (local tier) and the Firestore
`embeddings` documents (durable tier), each keyed by class id. -/
structure SysState where
  local_cache : List (String × List (String × Vec))
  durable : List (String × List (String × Vec))
deriving DecidableEq, Repr

/-- `EmbeddingService.save_class_embeddings` (lines 322-325): writes the
local tier.  The pickle `_save_cache` persists to disk with a swallowed
`try/except` (external file IO, not modelled); the in-memory write always
happens. -/
def save_class_embeddings (class_id : String)
    (embeddings : List (String × Vec)) (st : SysState) : SysState :=
  { st with local_cache := assoc_insert st.local_cache class_id embeddings }

/-- `FirebaseService.save_embeddings` (firebase_utils.py lines 134-161):
writes the durable tier, and re-raises on any failure (`except: ...;
raise`).  Whether the external write fails is the `durable_fails` input. -/
def firebase_save_embeddings (durable_fails : Bool) (class_id : String)
    (embeddings : List (String × Vec)) (st : SysState) : Except Unit SysState :=
  if durable_fails then Except.error ()
  else Except.ok { st with durable := assoc_insert st.durable class_id embeddings }

/-- `RecognitionService.train_class_embeddings` (recognition.py lines
17-74).  Downloads are issued for members with a nonempty `photo` (lines
27-45; a gathered exception or failed download becomes `none`, lines
48-54), embeddings are generated synchronously, and if any were produced
the local tier is written and then the durable tier; a durable-tier raise
propagates out of `train` (the `except` on line 72 re-raises), carried here
as `Except.error` holding the state at the raise — the local write has
already happened.  With zero embeddings the function returns `0` and writes
nothing. -/
def train_class_embeddings (fetch : FetchFn) (extract : ExtractFn)
    (b64decode : DecodeFn) (durable_fails : Bool) (class_id : String)
    (students : List Student) (st : SysState) :
    Except SysState (ℕ × SysState) :=
  let students_with_images :=
    students.map (fun s => (s, if s.photo = "" then none else fetch s))
  let embeddings := generate_class_embeddings_sync extract b64decode
    students_with_images
  if embeddings.isEmpty then Except.ok (0, st)
  else
    let st1 := save_class_embeddings class_id embeddings st
    match firebase_save_embeddings durable_fails class_id embeddings st1 with
    | Except.ok st2 => Except.ok (embeddings.length, st2)
    | Except.error _ => Except.error st1

/-- Whether one member makes it into the enrolled set: nonempty photo,
successful acquisition, successful base64 resolution, successful
extraction. -/
def member_succeeds (fetch : FetchFn) (extract : ExtractFn)
    (b64decode : DecodeFn) (s : Student) : Bool :=
  if s.photo = "" then false
  else
    match fetch s with
    | none => false
    | some d =>
      match resolve_image b64decode d with
      | none => false
      | some image_bytes => (extract image_bytes).isSome

/-- The enrolled-set entry contributed by one member, `none` when any of
its stages fails. -/
def enrolled_entry (fetch : FetchFn) (extract : ExtractFn)
    (b64decode : DecodeFn) (s : Student) : Option (String × Vec) :=
  if s.photo = "" then none
  else
    match fetch s with
    | none => none
    | some d =>
      match resolve_image b64decode d with
      | none => none
      | some image_bytes =>
        match extract image_bytes with
        | some encoding => some (s.id, encoding)
        | none => none

/-! ### Helper lemmas -/

lemma argminQ_lt_length (l : List ℚ) (h : l ≠ []) : argminQ l < l.length := by
  induction l with
  | nil => exact absurd rfl h
  | cons d rest ih =>
    by_cases hr : rest = []
    · subst hr
      simp [argminQ]
    · have hlt := ih hr
      simp only [argminQ, List.isEmpty_eq_true, hr, if_false, List.length_cons]
      split
      · exact Nat.succ_lt_succ hlt
      · exact Nat.succ_pos _

lemma argminQ_getD_le (l : List ℚ) : ∀ q ∈ l, l.getD (argminQ l) 0 ≤ q := by
  induction l with
  | nil => intro q hq; exact absurd hq (List.not_mem_nil q)
  | cons d rest ih =>
    intro q hq
    by_cases hr : rest = []
    · subst hr
      rcases List.mem_singleton.mp hq with rfl
      simp [argminQ]
    · simp only [argminQ, List.isEmpty_eq_true, hr, if_false]
      rcases List.mem_cons.mp hq with rfl | hq'
      · split
        · next hlt => simpa using le_of_lt hlt
        · simp
      · split
        · next hlt => simpa using ih q hq'
        · next hge =>
          simp only [List.getD_cons_zero]
          exact le_trans (not_lt.mp hge) (ih q hq')

lemma getD_mem_of_lt {l : List ℚ} {n : ℕ} (h : n < l.length) : l.getD n 0 ∈ l := by
  rw [List.getD_eq_getElem l 0 h]
  exact List.getElem_mem h

/-- `find_best_match` on a non-empty enrolled set, written as the three-way
decision over `best_distance` and `best_student_id`. -/
lemma find_best_match_eq (norm : NormFn) (known : List (String × Vec))
    (unknown : Vec) (tol : ℚ) (h : known ≠ []) :
    find_best_match norm known unknown tol =
      if best_distance norm known unknown ≤ tol then
        if (1 : ℚ) - best_distance norm known unknown ≥ 1/2 then
          { matched := true,
            student_id := some (best_student_id norm known unknown),
            confidence := 1 - best_distance norm known unknown,
            distance := some (best_distance norm known unknown),
            reason := none }
        else
          { matched := false,
            student_id := some (best_student_id norm known unknown),
            confidence := 1 - best_distance norm known unknown,
            distance := some (best_distance norm known unknown),
            reason := some Reason.LowConfidence }
      else
        { matched := false,
          student_id := some (best_student_id norm known unknown),
          confidence := 1 - best_distance norm known unknown,
          distance := some (best_distance norm known unknown),
          reason := some Reason.DistanceExceedsTolerance } := by
  have hne : known.isEmpty = false := by
    simpa [List.isEmpty_iff] using h
  simp only [find_best_match, hne, Bool.false_eq_true, if_false,
    best_distance, best_student_id, match_distances]

lemma match_distances_ne_nil (norm : NormFn) (known : List (String × Vec))
    (unknown : Vec) (h : known ≠ []) :
    match_distances norm known unknown ≠ [] := by
  simp only [match_distances, face_distance, mock_face_distance]
  have : (known.map Prod.snd).isEmpty = false := by
    simpa [List.isEmpty_iff] using h
  simp [this, List.isEmpty_iff] at *
  simpa [List.map_eq_nil_iff] using h

lemma best_distance_mem (norm : NormFn) (known : List (String × Vec))
    (unknown : Vec) (h : known ≠ []) :
    best_distance norm known unknown ∈ match_distances norm known unknown := by
  have hne := match_distances_ne_nil norm known unknown h
  exact getD_mem_of_lt (argminQ_lt_length _ hne)

lemma face_distance_mem_bounds (norm : NormFn)
    (hnorm : ∀ a b d, norm a b = Except.ok d → 0 ≤ d)
    (known : List Vec) (unknown : Vec) :
    ∀ x ∈ face_distance norm known unknown, 0 ≤ x ∧ x ≤ 1 := by
  intro x hx
  simp only [face_distance, mock_face_distance] at hx
  by_cases hk : known.isEmpty
  · simp [hk] at hx
  · simp only [hk, Bool.false_eq_true, if_false, List.mem_map] at hx
    obtain ⟨ke, _, hke⟩ := hx
    revert hke
    cases hnk : norm ke unknown with
    | ok d =>
      intro hke
      have hd : 0 ≤ d := hnorm ke unknown d hnk
      simp only [clampDist] at hke
      subst hke
      split
      · next hgt =>
        constructor
        · exact le_min hd zero_le_one
        · exact min_le_right d 1
      · next hle => exact ⟨hd, not_lt.mp hle⟩
    | error e =>
      intro hke
      subst hke
      exact ⟨zero_le_one, le_refl 1⟩

lemma best_distance_bounds (norm : NormFn)
    (hnorm : ∀ a b d, norm a b = Except.ok d → 0 ≤ d)
    (known : List (String × Vec)) (unknown : Vec) (h : known ≠ []) :
    0 ≤ best_distance norm known unknown ∧ best_distance norm known unknown ≤ 1 :=
  face_distance_mem_bounds norm hnorm (known.map Prod.snd) unknown _
    (best_distance_mem norm known unknown h)

lemma sqNorm_nonneg : ∀ a b d, sqNorm a b = Except.ok d → 0 ≤ d := by
  intro a b d hab
  simp only [sqNorm] at hab
  split at hab
  · cases hab
    apply List.sum_nonneg
    intro x hx
    obtain ⟨p, _, rfl⟩ := List.mem_map.mp hx
    exact sq_nonneg _
  · cases hab

/-! ### Claim theorems: match engine -/

/-- C1: for every non-empty enrolled set, `find_best_match` returns
`matched = true` exactly when the minimum distance is within tolerance and
the derived confidence `1 - best_distance` is at least the fixed floor
`0.5`; the tolerance gate is evaluated first (when the distance exceeds the
tolerance the reason is `DistanceExceedsTolerance` regardless of the
confidence), and in both rejection branches the id of the best candidate,
confidence and distance are still reported, with reason
`DistanceExceedsTolerance` or `LowConfidence` respectively. -/
theorem C1_two_gate_decision (norm : NormFn)
    (known_encodings : List (String × Vec)) (unknown_encoding : Vec)
    (tolerance : ℚ) (h : known_encodings ≠ []) :
    ((find_best_match norm known_encodings unknown_encoding tolerance).matched
        = true ↔
      (best_distance norm known_encodings unknown_encoding ≤ tolerance ∧
       (1 : ℚ) - best_distance norm known_encodings unknown_encoding ≥ 1/2)) ∧
    (∀ q ∈ match_distances norm known_encodings unknown_encoding,
       best_distance norm known_encodings unknown_encoding ≤ q) ∧
    (best_distance norm known_encodings unknown_encoding > tolerance →
      find_best_match norm known_encodings unknown_encoding tolerance =
        { matched := false,
          student_id :=
            some (best_student_id norm known_encodings unknown_encoding),
          confidence :=
            1 - best_distance norm known_encodings unknown_encoding,
          distance :=
            some (best_distance norm known_encodings unknown_encoding),
          reason := some Reason.DistanceExceedsTolerance }) ∧
    (best_distance norm known_encodings unknown_encoding ≤ tolerance →
     (1 : ℚ) - best_distance norm known_encodings unknown_encoding < 1/2 →
      find_best_match norm known_encodings unknown_encoding tolerance =
        { matched := false,
          student_id :=
            some (best_student_id norm known_encodings unknown_encoding),
          confidence :=
            1 - best_distance norm known_encodings unknown_encoding,
          distance :=
            some (best_distance norm known_encodings unknown_encoding),
          reason := some Reason.LowConfidence }) := by
  have heq := find_best_match_eq norm known_encodings unknown_encoding tolerance h
  refine ⟨?_, ?_, ?_, ?_⟩
  · rw [heq]
    split_ifs with h1 h2
    · exact iff_of_true rfl ⟨h1, h2⟩
    · exact iff_of_false (by simp) (fun hc => h2 hc.2)
    · exact iff_of_false (by simp) (fun hc => h1 hc.1)
  · intro q hq
    exact argminQ_getD_le _ q hq
  · intro hgt
    rw [heq, if_neg (not_le.mpr hgt)]
  · intro hle hconf
    rw [heq, if_pos hle, if_neg (not_le.mpr hconf)]

/-- Witness for C1 at a concrete input: one enrolled member at distance 1
from the query, tolerance 0.6 — rejected through the tolerance gate with
the candidate still reported. -/
theorem C1_two_gate_decision_witness :
    best_distance sqNorm [("a", [(1 : ℚ), 0])] [0, 0] > 3/5 ∧
    find_best_match sqNorm [("a", [(1 : ℚ), 0])] [0, 0] (3/5) =
      { matched := false, student_id := some "a", confidence := 0,
        distance := some 1, reason := some Reason.DistanceExceedsTolerance } := by
  have hbd : best_distance sqNorm [("a", [(1 : ℚ), 0])] [0, 0] = 1 := by
    norm_num [best_distance, match_distances, face_distance,
      mock_face_distance, sqNorm, clampDist, argminQ]
  have hgt : best_distance sqNorm [("a", [(1 : ℚ), 0])] [0, 0] > 3/5 := by
    rw [hbd]; norm_num
  have h := (C1_two_gate_decision sqNorm [("a", [(1 : ℚ), 0])] [0, 0] (3/5)
    (by simp)).2.2.1 hgt
  refine ⟨hgt, ?_⟩
  rw [h, hbd]
  norm_num [best_student_id, match_distances, face_distance,
    mock_face_distance, sqNorm, clampDist, argminQ]

/-- C3: whenever `find_best_match` reports a candidate (the enrolled set is
non-empty), the reported confidence equals `1` minus the reported best
distance, and — the underlying norm primitive being nonnegative, as any
norm is — the confidence lies in `[0, 1]` even when the raw norm value
exceeds `1`, because `face_distance` clamps each distance to at most
`1.0`. -/
theorem C3_confidence_complement (norm : NormFn)
    (known : List (String × Vec)) (unknown : Vec) (tol : ℚ)
    (hnorm : ∀ a b d, norm a b = Except.ok d → 0 ≤ d)
    (h : known ≠ []) :
    (find_best_match norm known unknown tol).distance =
        some (best_distance norm known unknown) ∧
    (find_best_match norm known unknown tol).confidence =
        1 - best_distance norm known unknown ∧
    0 ≤ (find_best_match norm known unknown tol).confidence ∧
    (find_best_match norm known unknown tol).confidence ≤ 1 := by
  obtain ⟨hd0, hd1⟩ := best_distance_bounds norm hnorm known unknown h
  have heq := find_best_match_eq norm known unknown tol h
  rw [heq]
  split_ifs with h1 h2 <;>
    exact ⟨rfl, rfl,
      by show (0 : ℚ) ≤ 1 - best_distance norm known unknown; linarith,
      by show (1 : ℚ) - best_distance norm known unknown ≤ 1; linarith⟩

/-- Witness for C3 at a concrete input where the raw norm value is `4 > 1`:
the reported distance is clamped to `1` and the confidence is `0 ∈ [0,1]`. -/
theorem C3_confidence_complement_witness :
    sqNorm [(2 : ℚ), 0] [0, 0] = Except.ok 4 ∧
    best_distance sqNorm [("a", [(2 : ℚ), 0])] [0, 0] = 1 ∧
    (find_best_match sqNorm [("a", [(2 : ℚ), 0])] [0, 0] (3/5)).confidence =
      1 - best_distance sqNorm [("a", [(2 : ℚ), 0])] [0, 0] ∧
    0 ≤ (find_best_match sqNorm [("a", [(2 : ℚ), 0])] [0, 0] (3/5)).confidence ∧
    (find_best_match sqNorm [("a", [(2 : ℚ), 0])] [0, 0] (3/5)).confidence ≤ 1 := by
  have h := C3_confidence_complement sqNorm [("a", [(2 : ℚ), 0])] [0, 0] (3/5)
    sqNorm_nonneg (by simp)
  refine ⟨by norm_num [sqNorm], ?_, h.2.1, h.2.2.1, h.2.2.2⟩
  norm_num [best_distance, match_distances, face_distance,
    mock_face_distance, sqNorm, clampDist, argminQ]

/-- C5 fails on the code: with vectors of different lengths the norm
primitive does raise, but `face_distance` catches the error inside its
per-encoding loop and coerces it to the worst-case distance `1.0`, and
`find_best_match` returns an ordinary unmatched result — the failure is
silently coerced into a non-error result, not surfaced to the caller. -/
theorem C5_counterexample :
    ([(0 : ℚ), 0].length ≠ [(0 : ℚ), 0, 0].length) ∧
    sqNorm [0, 0] [0, 0, 0] = Except.error () ∧
    face_distance sqNorm [[0, 0]] [0, 0, 0] = [1] ∧
    find_best_match sqNorm [("a", [(0 : ℚ), 0])] [0, 0, 0] (3/5) =
      { matched := false, student_id := some "a", confidence := 0,
        distance := some 1, reason := some Reason.DistanceExceedsTolerance } := by
  refine ⟨by simp, by norm_num [sqNorm], ?_, ?_⟩
  · norm_num [face_distance, mock_face_distance, sqNorm]
  · norm_num [find_best_match, face_distance, mock_face_distance, sqNorm,
      clampDist, argminQ]

/-- C5 amended: when the norm primitive fails on every enrolled vector
(e.g. a dimension mismatch between the query and all stored signatures),
the error is swallowed: every distance is coerced to `1.0` and, for any
tolerance below `1`, `find_best_match` reports an ordinary
`DistanceExceedsTolerance` rejection with confidence `0` — no error reaches
the caller. -/
theorem C5_amended_mismatch_coerced (norm : NormFn)
    (known : List (String × Vec)) (unknown : Vec) (tol : ℚ)
    (h : known ≠ [])
    (herr : ∀ p ∈ known, norm p.2 unknown = Except.error ())
    (htol : tol < 1) :
    find_best_match norm known unknown tol =
      { matched := false,
        student_id := some (best_student_id norm known unknown),
        confidence := 0, distance := some 1,
        reason := some Reason.DistanceExceedsTolerance } := by
  have hall : ∀ x ∈ match_distances norm known unknown, x = 1 := by
    intro x hx
    have hne : (known.map Prod.snd).isEmpty = false := by
      simpa [List.isEmpty_iff, List.map_eq_nil_iff] using h
    simp only [match_distances, face_distance, mock_face_distance, hne,
      Bool.false_eq_true, if_false] at hx
    obtain ⟨ke, hke, hfn⟩ := List.mem_map.mp hx
    obtain ⟨p, hp, rfl⟩ := List.mem_map.mp hke
    rw [herr p hp] at hfn
    exact hfn.symm
  have hbd : best_distance norm known unknown = 1 :=
    hall _ (best_distance_mem norm known unknown h)
  rw [find_best_match_eq norm known unknown tol h, hbd,
    if_neg (not_le.mpr htol)]
  norm_num

/-- Witness for the amended C5 at a concrete mismatched input. -/
theorem C5_amended_witness :
    find_best_match sqNorm [("a", [(0 : ℚ), 0])] [0, 0, 0] (3/5) =
      { matched := false,
        student_id :=
          some (best_student_id sqNorm [("a", [(0 : ℚ), 0])] [0, 0, 0]),
        confidence := 0, distance := some 1,
        reason := some Reason.DistanceExceedsTolerance } :=
  C5_amended_mismatch_coerced sqNorm [("a", [(0 : ℚ), 0])] [0, 0, 0] (3/5)
    (by simp)
    (by intro p hp
        rw [List.mem_singleton] at hp
        subst hp
        norm_num [sqNorm])
    (by norm_num)

/-- C6: matching is monotone in tolerance — if `find_best_match` matches at
tolerance `t1` then it also matches at any `t2 ≥ t1`, for the same enrolled
set and query. -/
theorem C6_tolerance_monotone (norm : NormFn) (known : List (String × Vec))
    (unknown : Vec) (t1 t2 : ℚ) (h12 : t1 ≤ t2)
    (hm : (find_best_match norm known unknown t1).matched = true) :
    (find_best_match norm known unknown t2).matched = true := by
  by_cases h : known = []
  · subst h
    simp [find_best_match] at hm
  · rw [find_best_match_eq norm known unknown t1 h] at hm
    rw [find_best_match_eq norm known unknown t2 h]
    split_ifs at hm with ha hb
    rw [if_pos (le_trans ha h12), if_pos hb]

/-- Witness for C6: a query matched at tolerance 0.6 stays matched at
tolerance 0.7. -/
theorem C6_tolerance_monotone_witness :
    (find_best_match sqNorm [("a", [(1 : ℚ), 0])] [1, 0] (3/5)).matched = true ∧
    (find_best_match sqNorm [("a", [(1 : ℚ), 0])] [1, 0] (7/10)).matched = true := by
  have h1 : (find_best_match sqNorm [("a", [(1 : ℚ), 0])] [1, 0] (3/5)).matched
      = true := by
    norm_num [find_best_match, face_distance, mock_face_distance, sqNorm,
      clampDist, argminQ]
  exact ⟨h1, C6_tolerance_monotone sqNorm [("a", [(1 : ℚ), 0])] [1, 0]
    (3/5) (7/10) (by norm_num) h1⟩

/-- C7: on an empty enrolled set `find_best_match` returns immediately with
`matched = false`, a null member id and confidence `0.0`, for every query
and tolerance, with no `distance`/`reason` keys and no error. -/
theorem C7_empty_enrolled (norm : NormFn) (unknown : Vec) (tol : ℚ) :
    find_best_match norm [] unknown tol =
      { matched := false, student_id := none, confidence := 0,
        distance := none, reason := none } := rfl

/-! ### Claim theorems: liveness engine -/

/-- C2: `check_liveness` returns `is_live = true` exactly when at least 3
of the 5 boolean checks pass and the weighted confidence is at least `0.5`;
consequently every metrics combination with exactly 3 checks passed but
confidence below `0.5` is rejected, and every combination with confidence
at least `0.5` but only 2 checks passed is rejected. -/
theorem C2_conjunctive_verdict (m : LivenessMetrics) :
    ((check_liveness_core m).is_live = true ↔
      (liveness_checks_passed m ≥ 3 ∧ liveness_confidence m ≥ 1/2)) ∧
    (liveness_checks_passed m = 3 → liveness_confidence m < 1/2 →
      (check_liveness_core m).is_live = false) ∧
    (liveness_confidence m ≥ 1/2 → liveness_checks_passed m = 2 →
      (check_liveness_core m).is_live = false) := by
  have hl : (check_liveness_core m).is_live =
      (decide (liveness_checks_passed m ≥ 3) &&
       decide (liveness_confidence m ≥ 1/2)) := rfl
  refine ⟨?_, ?_, ?_⟩
  · rw [hl]
    simp [Bool.and_eq_true, decide_eq_true_eq]
  · intro _ hc
    have hd : (decide (liveness_confidence m ≥ 1/2)) = false :=
      decide_eq_false (not_le.mpr hc)
    rw [hl, hd, Bool.and_false]
  · intro _ h2
    have hd : (decide (liveness_checks_passed m ≥ 3)) = false :=
      decide_eq_false (by omega)
    rw [hl, hd, Bool.false_and]

/-- Witness for C2: a metrics vector passing exactly the three low-magnitude
checks (texture 15, sharpness 50, skin ratio 0.3, moiré 0.5, no eyes) has
confidence 47/200 < 0.5 and is rejected; a vector with confidence
127/250 ≥ 0.5 (texture 1000, sharpness 1000, skin 0.29, moiré 0.5, no
eyes) passes only 2 checks and is rejected. -/
theorem C2_conjunctive_verdict_witness :
    liveness_checks_passed ⟨15, 50, 3/10, 1/2, 0⟩ = 3 ∧
    liveness_confidence ⟨15, 50, 3/10, 1/2, 0⟩ < 1/2 ∧
    (check_liveness_core ⟨15, 50, 3/10, 1/2, 0⟩).is_live = false ∧
    liveness_confidence ⟨1000, 1000, 29/100, 1/2, 0⟩ ≥ 1/2 ∧
    liveness_checks_passed ⟨1000, 1000, 29/100, 1/2, 0⟩ = 2 ∧
    (check_liveness_core ⟨1000, 1000, 29/100, 1/2, 0⟩).is_live = false := by
  have hA3 : liveness_checks_passed ⟨15, 50, 3/10, 1/2, 0⟩ = 3 := by
    norm_num [liveness_checks_passed, liveness_checks, TEXTURE_THRESHOLD,
      QUALITY_THRESHOLD, COLOR_SCORE_THRESHOLD, List.count_cons, List.count_nil]
  have hAc : liveness_confidence ⟨15, 50, 3/10, 1/2, 0⟩ < 1/2 := by
    norm_num [liveness_confidence, min_def]
  have hBc : liveness_confidence ⟨1000, 1000, 29/100, 1/2, 0⟩ ≥ 1/2 := by
    norm_num [liveness_confidence, min_def]
  have hB2 : liveness_checks_passed ⟨1000, 1000, 29/100, 1/2, 0⟩ = 2 := by
    norm_num [liveness_checks_passed, liveness_checks, TEXTURE_THRESHOLD,
      QUALITY_THRESHOLD, COLOR_SCORE_THRESHOLD, List.count_cons, List.count_nil]
  exact ⟨hA3, hAc, (C2_conjunctive_verdict ⟨15, 50, 3/10, 1/2, 0⟩).2.1 hA3 hAc,
    hBc, hB2, (C2_conjunctive_verdict ⟨1000, 1000, 29/100, 1/2, 0⟩).2.2 hBc hB2⟩

/-- C4: the weighted confidence is
`0.25·min(texture/50, 1) + 0.20·min(sharpness/100, 1) + 0.20·skinRatio
 + 0.20·(1 if eyes ≥ 1 else 0) + 0.15·(1 − min(moiré·2, 1))`; the five
weights sum to `1`, and with the skin ratio and the moiré (periodic) score
in `[0, 1]` — and the two variance scores nonnegative, as Laplacian
variances always are — the confidence lies in `[0, 1]`. -/
theorem C4_confidence_formula (m : LivenessMetrics) :
    (liveness_confidence m =
      1/4 * min (m.texture_score / 50) 1 +
      1/5 * min (m.blur_score / 100) 1 +
      1/5 * m.color_score +
      1/5 * (if m.num_eyes ≥ 1 then 1 else 0) +
      3/20 * (1 - min (m.moire_score * 2) 1)) ∧
    ((1/4 : ℚ) + 1/5 + 1/5 + 1/5 + 3/20 = 1) ∧
    (0 ≤ m.texture_score → 0 ≤ m.blur_score →
     0 ≤ m.color_score → m.color_score ≤ 1 →
     0 ≤ m.moire_score → m.moire_score ≤ 1 →
     0 ≤ liveness_confidence m ∧ liveness_confidence m ≤ 1) := by
  refine ⟨by rw [liveness_confidence]; ring, by norm_num, ?_⟩
  intro ht hb hc0 hc1 hm0 _
  have h1 : 0 ≤ min (m.texture_score / 50) 1 :=
    le_min (div_nonneg ht (by norm_num)) zero_le_one
  have h1' : min (m.texture_score / 50) 1 ≤ 1 := min_le_right _ _
  have h2 : 0 ≤ min (m.blur_score / 100) 1 :=
    le_min (div_nonneg hb (by norm_num)) zero_le_one
  have h2' : min (m.blur_score / 100) 1 ≤ 1 := min_le_right _ _
  have h4 : 0 ≤ min (m.moire_score * 2) 1 :=
    le_min (by positivity) zero_le_one
  have h4' : min (m.moire_score * 2) 1 ≤ 1 := min_le_right _ _
  have h5 : (0 : ℚ) ≤ (if m.num_eyes ≥ 1 then (1 : ℚ) else 0) ∧
      (if m.num_eyes ≥ 1 then (1 : ℚ) else 0) ≤ 1 := by
    split <;> norm_num
  rw [liveness_confidence]
  constructor <;> linarith [h5.1, h5.2]

/-- Witness for C4: a concrete metrics vector with confidence `9/10 ∈ [0,1]`. -/
theorem C4_confidence_formula_witness :
    liveness_confidence ⟨100, 100, 1/2, 0, 2⟩ = 9/10 ∧
    0 ≤ liveness_confidence ⟨100, 100, 1/2, 0, 2⟩ ∧
    liveness_confidence ⟨100, 100, 1/2, 0, 2⟩ ≤ 1 := by
  have h := (C4_confidence_formula ⟨100, 100, 1/2, 0, 2⟩).2.2 (by norm_num)
    (by norm_num) (by norm_num) (by norm_num) (by norm_num) (by norm_num)
  exact ⟨by norm_num [liveness_confidence, min_def], h.1, h.2⟩

/-! ### Claim theorems: enrollment pipeline and cache -/

lemma enrolled_entry_isSome (fetch : FetchFn) (extract : ExtractFn)
    (b64decode : DecodeFn) (s : Student) :
    (enrolled_entry fetch extract b64decode s).isSome =
      member_succeeds fetch extract b64decode s := by
  unfold enrolled_entry member_succeeds
  by_cases hp : s.photo = ""
  · simp [hp]
  · simp only [hp, if_false]
    rcases hf : fetch s with _ | d
    · simp
    · rcases hr : resolve_image b64decode d with _ | b
      · simp [hr]
      · rcases hx : extract b with _ | e <;> simp [hr, hx]

lemma filterMap_entry_length (fetch : FetchFn) (extract : ExtractFn)
    (b64decode : DecodeFn) (students : List Student) :
    (students.filterMap (enrolled_entry fetch extract b64decode)).length =
      (students.filter (member_succeeds fetch extract b64decode)).length := by
  induction students with
  | nil => rfl
  | cons s rest ih =>
    rcases he : enrolled_entry fetch extract b64decode s with _ | v
    · have hs : member_succeeds fetch extract b64decode s = false := by
        rw [← enrolled_entry_isSome, he]
        rfl
      simp [List.filterMap_cons, List.filter_cons, he, hs, ih]
    · have hs : member_succeeds fetch extract b64decode s = true := by
        rw [← enrolled_entry_isSome, he]
        rfl
      simp [List.filterMap_cons, List.filter_cons, he, hs, ih]

/-- The per-pair outcome of one iteration of
the loop of `generate_class_embeddings_sync`. -/
def pair_entry (extract : ExtractFn) (b64decode : DecodeFn)
    (p : Student × Option ImageData) : Option (String × Vec) :=
  if p.1.photo = "" then none
  else
    match p.2 with
    | none => none
    | some d =>
      match resolve_image b64decode d with
      | none => none
      | some image_bytes =>
        match extract image_bytes with
        | some encoding => some (p.1.id, encoding)
        | none => none

lemma gen_sync_go_cons (extract : ExtractFn) (b64decode : DecodeFn)
    (acc : List (String × Vec)) (s : Student) (img : Option ImageData)
    (rest : List (Student × Option ImageData)) :
    gen_sync_go extract b64decode acc ((s, img) :: rest) =
      gen_sync_go extract b64decode
        (match pair_entry extract b64decode (s, img) with
         | none => acc
         | some kv => assoc_insert acc kv.1 kv.2) rest := by
  by_cases hp : s.photo = ""
  · simp [gen_sync_go, pair_entry, hp]
  · simp only [gen_sync_go, pair_entry, hp, if_false]
    rcases img with _ | d
    · simp
    · rcases hr : resolve_image b64decode d with _ | bytes
      · simp [hr]
      · rcases hx : extract bytes with _ | enc <;> simp [hr, hx]

lemma pair_entry_fetch (fetch : FetchFn) (extract : ExtractFn)
    (b64decode : DecodeFn) (s : Student) :
    pair_entry extract b64decode (s, if s.photo = "" then none else fetch s) =
      enrolled_entry fetch extract b64decode s := by
  by_cases hp : s.photo = "" <;> simp [pair_entry, enrolled_entry, hp]

lemma enrolled_entry_fst (fetch : FetchFn) (extract : ExtractFn)
    (b64decode : DecodeFn) (s : Student) (kv : String × Vec)
    (h : enrolled_entry fetch extract b64decode s = some kv) :
    kv.1 = s.id := by
  unfold enrolled_entry at h
  by_cases hp : s.photo = ""
  · simp [hp] at h
  · simp only [hp, if_false] at h
    rcases hf : fetch s with _ | d
    · simp [hf] at h
    · rcases hr : resolve_image b64decode d with _ | b
      · simp [hf, hr] at h
      · rcases hx : extract b with _ | e
        · simp [hf, hr, hx] at h
        · simp only [hf, hr, hx, Option.some.injEq] at h
          rw [← h]

lemma gen_sync_go_append (extract : ExtractFn) (b64decode : DecodeFn)
    (fetch : FetchFn) :
    ∀ (students : List Student) (acc : List (String × Vec)),
      (∀ p ∈ acc, p.1 ∉ students.map Student.id) →
      (students.map Student.id).Nodup →
      gen_sync_go extract b64decode acc
          (students.map (fun s => (s, if s.photo = "" then none else fetch s))) =
        acc ++ students.filterMap (enrolled_entry fetch extract b64decode) := by
  intro students
  induction students with
  | nil =>
    intro acc _ _
    simp [gen_sync_go]
  | cons s rest ih =>
    intro acc hdisj hnodup
    have hd' : ∀ p ∈ acc, p.1 ∉ rest.map Student.id := by
      intro p hp'
      have := hdisj p hp'
      simp only [List.map_cons, List.mem_cons, not_or] at this
      exact this.2
    have hmap : ((s :: rest).map Student.id).Nodup → s.id ∉ rest.map Student.id ∧
        (rest.map Student.id).Nodup := by
      intro hn
      rw [List.map_cons, List.nodup_cons] at hn
      exact hn
    obtain ⟨hsid, hn'⟩ := hmap hnodup
    rw [List.map_cons, gen_sync_go_cons, pair_entry_fetch]
    rcases he : enrolled_entry fetch extract b64decode s with _ | kv
    · rw [ih acc hd' hn']
      simp [List.filterMap_cons, he]
    · have hk1 : kv.1 = s.id := enrolled_entry_fst fetch extract b64decode s kv he
      have hkey : (acc.any (fun p => p.1 = kv.1)) = false := by
        rw [List.any_eq_false]
        intro p hp'
        simp only [decide_eq_true_eq]
        intro hps
        exact (hdisj p hp') (by simp [List.map_cons, hps, hk1])
      have hins : assoc_insert acc kv.1 kv.2 = acc ++ [kv] := by
        rw [assoc_insert, if_neg (by simp [hkey])]
      have hd2 : ∀ p ∈ assoc_insert acc kv.1 kv.2, p.1 ∉ rest.map Student.id := by
        rw [hins]
        intro p hp'
        rcases List.mem_append.mp hp' with hpa | hps
        · exact hd' p hpa
        · rw [List.mem_singleton] at hps
          subst hps
          rw [hk1]
          exact hsid
      rw [ih (assoc_insert acc kv.1 kv.2) hd2 hn', hins]
      simp [List.filterMap_cons, he]

/-- C8: acquisition and extraction failures are isolated per member — with
pairwise-distinct member ids and a healthy durable tier, the generated
enrolled set is exactly the per-member `filterMap` of independent outcomes
(so failure of one member cannot affect another), `train` completes with
`Except.ok` (no abort), and the returned count equals the number of members
whose fetch, decode and extraction all succeeded. -/
theorem C8_per_member_isolation (fetch : FetchFn) (extract : ExtractFn)
    (b64decode : DecodeFn) (class_id : String) (students : List Student)
    (st : SysState) (hnodup : (students.map Student.id).Nodup) :
    generate_class_embeddings_sync extract b64decode
        (students.map (fun s => (s, if s.photo = "" then none else fetch s))) =
      students.filterMap (enrolled_entry fetch extract b64decode) ∧
    (students.filterMap (enrolled_entry fetch extract b64decode)).length =
      (students.filter (member_succeeds fetch extract b64decode)).length ∧
    train_class_embeddings fetch extract b64decode false class_id students st =
      Except.ok
        ((students.filter (member_succeeds fetch extract b64decode)).length,
         if (students.filterMap (enrolled_entry fetch extract b64decode)).isEmpty
         then st
         else
           { local_cache := assoc_insert st.local_cache class_id
               (students.filterMap (enrolled_entry fetch extract b64decode)),
             durable := assoc_insert st.durable class_id
               (students.filterMap (enrolled_entry fetch extract b64decode)) }) := by
  have hg : generate_class_embeddings_sync extract b64decode
      (students.map (fun s => (s, if s.photo = "" then none else fetch s))) =
      students.filterMap (enrolled_entry fetch extract b64decode) := by
    simpa [generate_class_embeddings_sync] using
      gen_sync_go_append extract b64decode fetch students [] (by simp) hnodup
  refine ⟨hg, filterMap_entry_length fetch extract b64decode students, ?_⟩
  simp only [train_class_embeddings, hg, save_class_embeddings,
    firebase_save_embeddings, Bool.false_eq_true, if_false]
  by_cases he :
      (students.filterMap (enrolled_entry fetch extract b64decode)).isEmpty
  · have h0 : (students.filter (member_succeeds fetch extract b64decode)).length
        = 0 := by
      rw [← filterMap_entry_length]
      exact List.length_eq_zero.mpr (List.isEmpty_iff.mp he)
    simp [he, h0]
  · simp [he, filterMap_entry_length]

/-- Fixtures for the enrollment witnesses: five members, the fetch failing
for the second and the fourth. -/
def wStudents : List Student :=
  [{ id := "s1", name := "n", photo := "p" },
   { id := "s2", name := "n", photo := "p" },
   { id := "s3", name := "n", photo := "p" },
   { id := "s4", name := "n", photo := "p" },
   { id := "s5", name := "n", photo := "p" }]

/-- Witness fetch: downloads fail for members `s2` and `s4`. -/
def wFetch : FetchFn := fun s =>
  if s.id = "s2" ∨ s.id = "s4" then none else some (ImageData.raw 7)

/-- Witness extractor: always yields the encoding `[1]`. -/
def wExtract : ExtractFn := fun _ => some [1]

/-- Witness base64 decoder: never called on raw images; always fails. -/
def wDecode : DecodeFn := fun _ => none

/-- Witness for C8: 5 members with 2 fetch failures yield an enrolled set of
size 3 and a successful pipeline returning 3. -/
theorem C8_per_member_isolation_witness :
    (wStudents.filter (member_succeeds wFetch wExtract wDecode)).length = 3 ∧
    train_class_embeddings wFetch wExtract wDecode false "c" wStudents
        { local_cache := [], durable := [] } =
      Except.ok (3,
        { local_cache := [("c", [("s1", [1]), ("s3", [1]), ("s5", [1])])],
          durable := [("c", [("s1", [1]), ("s3", [1]), ("s5", [1])])] }) := by
  have hlen : (wStudents.filter (member_succeeds wFetch wExtract wDecode)).length
      = 3 := by decide
  have h := (C8_per_member_isolation wFetch wExtract wDecode "c" wStudents
    { local_cache := [], durable := [] } (by decide)).2.2
  refine ⟨hlen, ?_⟩
  rw [h, hlen]
  decide

/-- C9 fails on the code: with a failing durable tier, `train` does write
the local tier first (the error state carries the local write, the durable
tier untouched), but the durable-write failure is re-raised out of the
training call — the caller sees a failed call, not a locally-successful
enrollment with a warning. -/
theorem C9_counterexample :
    train_class_embeddings wFetch wExtract wDecode true "c" wStudents
        { local_cache := [], durable := [] } =
      Except.error
        { local_cache := [("c", [("s1", [1]), ("s3", [1]), ("s5", [1])])],
          durable := [] } := by
  decide

/-- C9 amended: the local write happens before the durable write and
survives a durable-tier failure — but the failure propagates out of the
training call as an error (the state at the raise is exactly the
local-tier write, with the durable tier unchanged), instead of being
reported as a warning-level success. -/
theorem C9_amended_local_write_survives (fetch : FetchFn)
    (extract : ExtractFn) (b64decode : DecodeFn) (class_id : String)
    (students : List Student) (st : SysState)
    (h : generate_class_embeddings_sync extract b64decode
        (students.map (fun s => (s, if s.photo = "" then none else fetch s)))
        ≠ []) :
    train_class_embeddings fetch extract b64decode true class_id students st =
      Except.error (save_class_embeddings class_id
        (generate_class_embeddings_sync extract b64decode
          (students.map (fun s => (s, if s.photo = "" then none else fetch s))))
        st) ∧
    (save_class_embeddings class_id
        (generate_class_embeddings_sync extract b64decode
          (students.map (fun s => (s, if s.photo = "" then none else fetch s))))
        st).durable = st.durable := by
  have he : (generate_class_embeddings_sync extract b64decode
      (students.map (fun s => (s, if s.photo = "" then none else fetch s)))).isEmpty
      = false := by
    simpa [List.isEmpty_iff] using h
  constructor
  · simp only [train_class_embeddings, firebase_save_embeddings, he,
      Bool.false_eq_true, if_false, if_true]
  · rfl

/-- Witness for the amended C9 at the concrete fixtures. -/
theorem C9_amended_witness :
    train_class_embeddings wFetch wExtract wDecode true "c" wStudents
        { local_cache := [], durable := [] } =
      Except.error (save_class_embeddings "c"
        (generate_class_embeddings_sync wExtract wDecode
          (wStudents.map (fun s => (s, if s.photo = "" then none else wFetch s))))
        { local_cache := [], durable := [] }) ∧
    (save_class_embeddings "c"
        (generate_class_embeddings_sync wExtract wDecode
          (wStudents.map (fun s => (s, if s.photo = "" then none else wFetch s))))
        { local_cache := [], durable := [] }).durable = ([] : List (String × List (String × Vec))) :=
  C9_amended_local_write_survives wFetch wExtract wDecode "c" wStudents
    { local_cache := [], durable := [] }
    (by decide)

/-- C10: when training produces zero embeddings, neither the local tier nor
the durable tier is written — `train` returns `0` and the whole storage
state, including any previously stored enrolled set, is unchanged. -/
theorem C10_zero_enrolled_state_unchanged (fetch : FetchFn)
    (extract : ExtractFn) (b64decode : DecodeFn) (durable_fails : Bool)
    (class_id : String) (students : List Student) (st : SysState)
    (h : generate_class_embeddings_sync extract b64decode
        (students.map (fun s => (s, if s.photo = "" then none else fetch s)))
        = []) :
    train_class_embeddings fetch extract b64decode durable_fails class_id
        students st = Except.ok (0, st) := by
  simp [train_class_embeddings, h]

/-- Witness for C10: every fetch fails, a previously stored enrolled set
stays intact and `train` returns 0. -/
theorem C10_zero_enrolled_witness :
    train_class_embeddings (fun _ => none) wExtract wDecode false "c" wStudents
        { local_cache := [("c", [("old", [9])])], durable := [] } =
      Except.ok (0,
        { local_cache := [("c", [("old", [9])])], durable := [] }) :=
  C10_zero_enrolled_state_unchanged (fun _ => none) wExtract wDecode false "c"
    wStudents { local_cache := [("c", [("old", [9])])], durable := [] }
    (by decide)

end FaceAttendance
